import Mathlib

/-!
Verification of the text-analysis core of the function-counter editor
extension (`src/extension.ts`).  The source file holds two copies of the
pure function `analyzeCode(text, language)`, each dispatching on the
language tag and counting non-overlapping matches of JavaScript regular
expressions with the `g` flag.  We embed a small backtracking regex
engine matching the JavaScript semantics used there (greedy character
classes, ordered alternation, word boundaries, global match counting),
translate each regular expression of the source literally, and embed
both copies of `analyzeCode` plus the shell handlers
`showStatsNotification` and `updateStatusBar` as pure functions whose
interactions with the editor host are reified as effect lists.
-/

/-- JavaScript `\w`: `[A-Za-z0-9_]` (ASCII, non-unicode regex mode). -/
def isWordChar (c : Char) : Bool :=
  c.isAlphanum || c == '_'

/-- JavaScript `\s`: ASCII whitespace plus the Unicode space separators
and BOM recognised by the ECMAScript `WhiteSpace`/`LineTerminator`
productions. -/
def isSpaceChar (c : Char) : Bool :=
  let n := c.toNat
  n == 0x20 || n == 0x09 || n == 0x0a || n == 0x0d || n == 0x0b || n == 0x0c ||
  n == 0xa0 || n == 0x1680 || (Nat.ble 0x2000 n && Nat.ble n 0x200a) ||
  n == 0x2028 || n == 0x2029 || n == 0x202f || n == 0x205f || n == 0x3000 ||
  n == 0xfeff

/-- Regular expressions as used by the source: single-character classes,
greedy star over a character class, concatenation, ordered alternation,
and the zero-width word-boundary assertion `\b`.  Every quantifier in the
source's patterns ranges over a character class, so a star over a
character predicate suffices. -/
inductive RE where
  | eps
  | ch (p : Char → Bool)
  | star (p : Char → Bool)
  | cat (a b : RE)
  | alt (a b : RE)
  | wb

/-- A literal character. -/
def chr (c : Char) : RE :=
  RE.ch (fun d => d == c)

/-- Concatenation of a list of regexes. -/
def cats (rs : List RE) : RE :=
  rs.foldr RE.cat RE.eps

/-- A literal string. -/
def lit (s : String) : RE :=
  cats (s.toList.map chr)

/-- Greedy `+` over a character class, as one mandatory character
followed by a greedy star. -/
def plusP (p : Char → Bool) : RE :=
  RE.cat (RE.ch p) (RE.star p)

/-- The `\b` assertion holds at position `i` iff exactly one of the
characters around the position is a word character (positions outside
the text count as non-word). -/
def wordBoundaryAt (txt : List Char) (i : Nat) : Bool :=
  let cur := match txt[i]? with
    | some c => isWordChar c
    | none => false
  let prev := match i with
    | 0 => false
    | j + 1 => match txt[j]? with
      | some c => isWordChar c
      | none => false
  cur != prev

/-- Length of the maximal run of characters satisfying `p` at the head
of a list. -/
def runLengthAux (p : Char → Bool) : List Char → Nat
  | [] => 0
  | c :: cs => if p c then runLengthAux p cs + 1 else 0

/-- Length of the maximal run of characters satisfying `p` starting at
position `i` of `txt`. -/
def runLength (p : Char → Bool) (txt : List Char) (i : Nat) : Nat :=
  runLengthAux p (txt.drop i)

/-- Greedy backtracking for a starred character class: try the
continuation after consuming `n` characters first, then `n - 1`, down
to zero, returning the first success.  This is the ECMAScript order for
a greedy quantifier. -/
def tryGreedy (k : Nat → Option Nat) (i : Nat) : Nat → Option Nat
  | 0 => k i
  | n + 1 =>
    match k (i + n + 1) with
    | some e => some e
    | none => tryGreedy k i n

/-- Backtracking matcher in continuation-passing style: attempt to match
`r` in `txt` starting at position `i`; on success of the whole pattern
the continuation receives the end position.  Alternation tries the left
branch first and stars are greedy, with full backtracking into the
continuation, exactly as the ECMAScript matching algorithm prescribes. -/
def runRE (txt : List Char) : RE → Nat → (Nat → Option Nat) → Option Nat
  | RE.eps, i, k => k i
  | RE.ch p, i, k =>
    match txt[i]? with
    | some c => if p c then k (i + 1) else none
    | none => none
  | RE.star p, i, k => tryGreedy k i (runLength p txt i)
  | RE.cat a b, i, k => runRE txt a i (fun j => runRE txt b j k)
  | RE.alt a b, i, k =>
    match runRE txt a i k with
    | some e => some e
    | none => runRE txt b i k
  | RE.wb, i, k => if wordBoundaryAt txt i then k i else none

/-- End position of the match of `r` starting exactly at position `i`,
if any. -/
def matchEndAt (r : RE) (txt : List Char) (i : Nat) : Option Nat :=
  runRE txt r i Option.some

/-- Leftmost match of `r` in `txt` starting at position `start` or
later, as a `(matchStart, matchEnd)` pair.  `fuel` bounds the scan and is
instantiated with `txt.length + 1` by the callers. -/
def firstMatchFrom (r : RE) (txt : List Char) : Nat → Nat → Option (Nat × Nat)
  | 0, _ => none
  | fuel + 1, i =>
    if txt.length < i then none
    else
      match matchEndAt r txt i with
      | some e => some (i, e)
      | none => firstMatchFrom r txt fuel (i + 1)

/-- Number of matches found by repeated search from position `i`,
resuming after each match (one position further when a match is empty):
the behaviour of `String.prototype.match` with a `g`-flagged regex. -/
def countFrom (r : RE) (txt : List Char) : Nat → Nat → Nat
  | 0, _ => 0
  | fuel + 1, i =>
    match firstMatchFrom r txt (txt.length + 1) i with
    | none => 0
    | some (s, e) => 1 + countFrom r txt fuel (max e (s + 1))

/-- `(text.match(re_g) || []).length` of the source: the number of
non-overlapping matches of `r` in `s`, scanned left to right. -/
def countMatches (r : RE) (s : String) : Nat :=
  countFrom r s.toList (s.toList.length + 1) 0

/-- `\bfunction\s+\w+\s*\(` — the javascript/typescript function
pattern. -/
def reFunctionKeyword : RE :=
  cats [RE.wb, lit "function", plusP isSpaceChar, plusP isWordChar,
    RE.star isSpaceChar, chr '(']

/-- `\bif\s*\(` — the curly-brace-family conditional pattern. -/
def reIfParen : RE :=
  cats [RE.wb, lit "if", RE.star isSpaceChar, chr '(']

/-- `\b(for|while)\s*\(` — the curly-brace-family loop pattern. -/
def reLoopParen : RE :=
  cats [RE.wb, RE.alt (lit "for") (lit "while"), RE.star isSpaceChar, chr '(']

/-- `\bdef\s+\w+\s*\(` — the python function pattern. -/
def reDefKeyword : RE :=
  cats [RE.wb, lit "def", plusP isSpaceChar, plusP isWordChar,
    RE.star isSpaceChar, chr '(']

/-- `\bif\s+[^:]*:` — the python conditional pattern. -/
def reIfColon : RE :=
  cats [RE.wb, lit "if", plusP isSpaceChar,
    RE.star (fun c => !(c == ':')), chr ':']

/-- `\b(for|while)\s+[^:]*:` — the python loop pattern. -/
def reLoopColon : RE :=
  cats [RE.wb, RE.alt (lit "for") (lit "while"), plusP isSpaceChar,
    RE.star (fun c => !(c == ':')), chr ':']

/-- `\b\w+\s+\w+\s*\([^)]*\)\s*\x7b` — the java/csharp/cpp/c function
pattern: identifier, whitespace, identifier, optional whitespace,
parenthesized parameter list, optional whitespace, opening brace. -/
def reCurlyFunction : RE :=
  cats [RE.wb, plusP isWordChar, plusP isSpaceChar, plusP isWordChar,
    RE.star isSpaceChar, chr '(', RE.star (fun c => !(c == ')')), chr ')',
    RE.star isSpaceChar, chr '\x7b']

/-- Modelled from the spec: the python conditional pattern as §4.1 words
it — "the keyword `if` followed by any non-colon characters up to a
trailing colon", with no whitespace required after `if` (so `if(x):`
matches).  Kept separate from `reIfColon`, which embeds the source's
regex `\bif\s+[^:]*:`, to compare the two. -/
def reSpecIfColon : RE :=
  cats [RE.wb, lit "if", RE.star (fun c => !(c == ':')), chr ':']

/-- The value object returned by `analyzeCode`. -/
structure AnalysisResult where
  functions : Nat
  ifs : Nat
  loops : Nat
deriving DecidableEq, Repr

/-- First copy of `analyzeCode` (before the document separator): switch
on the language tag, counting matches of the per-family regexes; tags
outside the switch keep the zero-initialised counts.  This copy has no
`php` case. -/
def analyzeCode (text : String) (language : String) : AnalysisResult :=
  if language = "javascript" ∨ language = "typescript" then
    { functions := countMatches reFunctionKeyword text
      ifs := countMatches reIfParen text
      loops := countMatches reLoopParen text }
  else if language = "python" then
    { functions := countMatches reDefKeyword text
      ifs := countMatches reIfColon text
      loops := countMatches reLoopColon text }
  else if language = "java" ∨ language = "csharp" ∨ language = "cpp" ∨
      language = "c" then
    { functions := countMatches reCurlyFunction text
      ifs := countMatches reIfParen text
      loops := countMatches reLoopParen text }
  else
    { functions := 0, ifs := 0, loops := 0 }

/-- Second copy of `analyzeCode` (after the document separator):
identical to the first except that its curly-brace switch arm also
lists `php`. -/
def analyzeCode' (text : String) (language : String) : AnalysisResult :=
  if language = "javascript" ∨ language = "typescript" then
    { functions := countMatches reFunctionKeyword text
      ifs := countMatches reIfParen text
      loops := countMatches reLoopParen text }
  else if language = "python" then
    { functions := countMatches reDefKeyword text
      ifs := countMatches reIfColon text
      loops := countMatches reLoopColon text }
  else if language = "java" ∨ language = "csharp" ∨ language = "cpp" ∨
      language = "c" ∨ language = "php" then
    { functions := countMatches reCurlyFunction text
      ifs := countMatches reIfParen text
      loops := countMatches reLoopParen text }
  else
    { functions := 0, ifs := 0, loops := 0 }

/-- The language tags recognised by either copy of `analyzeCode`. -/
def knownLanguageTags : List String :=
  ["javascript", "typescript", "python", "java", "csharp", "cpp", "c", "php"]

/-- The pieces of the active editor's document the shell reads. -/
structure TextDocument where
  text : String
  languageId : String

/-- Observable interactions of a shell handler with the editor host:
a call into the Analyzer, a popup notification message, or a write to
the status-bar text. -/
inductive ShellEffect where
  | analyzerCall (text language : String)
  | showMessage (msg : String)
  | statusText (msg : String)
deriving DecidableEq

/-- `showStatsNotification`: with no active editor, show the fixed
message and return without analysing; otherwise call `analyzeCode` on
the document's text and tag and show the statistics message. -/
def showStatsNotification (activeEditor : Option TextDocument) :
    List ShellEffect :=
  match activeEditor with
  | none => [ShellEffect.showMessage "No active code file found"]
  | some doc =>
    let stats := analyzeCode doc.text doc.languageId
    [ShellEffect.analyzerCall doc.text doc.languageId,
     ShellEffect.showMessage ("Code Statistics: " ++
       toString stats.functions ++ " functions, " ++
       toString stats.ifs ++ " if statements, " ++
       toString stats.loops ++ " loops")]

/-- The `updateStatusBar` closure of `activate`: with no active editor,
set the fixed status text and return without analysing; otherwise call
`analyzeCode` and set the formatted statistics line. -/
def updateStatusBar (activeEditor : Option TextDocument) :
    List ShellEffect :=
  match activeEditor with
  | none => [ShellEffect.statusText "Статистика: нет активного файла"]
  | some doc =>
    let stats := analyzeCode doc.text doc.languageId
    [ShellEffect.analyzerCall doc.text doc.languageId,
     ShellEffect.statusText ("[" ++ doc.languageId ++ "] Функции: " ++
       toString stats.functions ++ " | If: " ++
       toString stats.ifs ++ " | Циклы: " ++
       toString stats.loops)]

/-- C5: `analyze("function test() \x7b if (true) \x7b \x7d \x7d", "javascript")`
returns `\x7bfunctions: 1, ifs: 1, loops: 0\x7d`. -/
theorem C5_javascript_example :
    analyzeCode "function test() \x7b if (true) \x7b \x7d \x7d" "javascript" =
      ⟨1, 1, 0⟩ := by
  decide

/-- C6: `analyze("for (i=0;i<10;i++) \x7b while(x) \x7b\x7d \x7d", "java")`
returns `\x7bfunctions: 0, ifs: 0, loops: 2\x7d`; in particular the loop
headers do not also match the java-family function pattern. -/
theorem C6_java_example :
    analyzeCode "for (i=0;i<10;i++) \x7b while(x) \x7b\x7d \x7d" "java" =
      ⟨0, 0, 2⟩ := by
  decide

/-- C7: `analyze("def foo():\n    if x:\n        pass", "python")` returns
`\x7bfunctions: 1, ifs: 1, loops: 0\x7d`. -/
theorem C7_python_example :
    analyzeCode "def foo():\n    if x:\n        pass" "python" =
      ⟨1, 1, 0⟩ := by
  decide

/-- C2: for every input text and every language tag outside the known
set (javascript, typescript, python, java, csharp, cpp, c, php), both
copies of `analyzeCode` return zero counts; no error is signalled for an
unsupported tag. -/
theorem C2_unknown_tag_zero (text tag : String)
    (h : tag ∉ knownLanguageTags) :
    analyzeCode text tag = ⟨0, 0, 0⟩ ∧ analyzeCode' text tag = ⟨0, 0, 0⟩ := by
  simp only [knownLanguageTags, List.mem_cons, List.not_mem_nil, or_false,
    not_or] at h
  obtain ⟨h1, h2, h3, h4, h5, h6, h7, h8⟩ := h
  unfold analyzeCode analyzeCode'
  simp [h1, h2, h3, h4, h5, h6, h7, h8]

/-- C2 witness: the tag "ruby" is outside the known set and yields zero
counts on the spec's example text. -/
theorem C2_unknown_tag_zero_witness :
    "ruby" ∉ knownLanguageTags ∧
      (analyzeCode "some text" "ruby" = ⟨0, 0, 0⟩ ∧
        analyzeCode' "some text" "ruby" = ⟨0, 0, 0⟩) :=
  ⟨by decide, C2_unknown_tag_zero "some text" "ruby" (by decide)⟩

/-- C3: for every language tag, known or unknown, analysing the empty
text returns zero counts (both copies). -/
theorem C3_empty_text_zero (tag : String) :
    analyzeCode "" tag = ⟨0, 0, 0⟩ ∧ analyzeCode' "" tag = ⟨0, 0, 0⟩ := by
  unfold analyzeCode analyzeCode'
  constructor <;> (split; · rfl) <;> (split; · rfl) <;> (split; · rfl) <;> rfl

/-- C9: `analyzeCode` is deterministic and stateless — its result is a
function of its two arguments alone, so two calls on identical argument
pairs yield identical results (both copies). -/
theorem C9_deterministic (text₁ tag₁ text₂ tag₂ : String)
    (ht : text₁ = text₂) (hl : tag₁ = tag₂) :
    analyzeCode text₁ tag₁ = analyzeCode text₂ tag₂ ∧
      analyzeCode' text₁ tag₁ = analyzeCode' text₂ tag₂ := by
  subst ht
  subst hl
  exact ⟨rfl, rfl⟩

/-- C9 witness: determinism instantiated at a concrete argument pair. -/
theorem C9_deterministic_witness :
    analyzeCode "def f(x):" "python" = analyzeCode "def f(x):" "python" ∧
      analyzeCode' "def f(x):" "python" = analyzeCode' "def f(x):" "python" :=
  C9_deterministic "def f(x):" "python" "def f(x):" "python" rfl rfl

/-- C1 counterexample: the claim includes javascript among the tags whose
functions count uses the two-identifier curly pattern, but the
javascript arm counts `\bfunction\s+\w+\s*\(` instead: on
"int add(int a) \x7b" the claimed pattern has one match while
`analyzeCode` under the tag javascript reports zero functions. -/
theorem C1_counterexample :
    (analyzeCode "int add(int a) \x7b" "javascript").functions ≠
      countMatches reCurlyFunction "int add(int a) \x7b" := by
  decide

/-- C1 (amended): for the tags java, csharp, cpp and c the functions
field equals the number of non-overlapping matches of the
identifier–whitespace–identifier–parenthesized-parameter-list–brace
pattern `\b\w+\s+\w+\s*\([^)]*\)\s*\x7b`; for javascript and typescript it
instead equals the number of matches of the keyword pattern
`\bfunction\s+\w+\s*\(`. -/
theorem C1_function_pattern_by_family (text tag : String) :
    ((tag = "java" ∨ tag = "csharp" ∨ tag = "cpp" ∨ tag = "c") →
      (analyzeCode text tag).functions = countMatches reCurlyFunction text) ∧
    ((tag = "javascript" ∨ tag = "typescript") →
      (analyzeCode text tag).functions = countMatches reFunctionKeyword text) := by
  constructor
  · rintro (rfl | rfl | rfl | rfl) <;> rfl
  · rintro (rfl | rfl) <;> rfl

/-- C1 witness: the amended statement instantiated once in each family,
at concrete tags and texts. -/
theorem C1_function_pattern_by_family_witness :
    (analyzeCode "int add(int a) \x7b" "java").functions =
      countMatches reCurlyFunction "int add(int a) \x7b" ∧
    (analyzeCode "function f() \x7b" "javascript").functions =
      countMatches reFunctionKeyword "function f() \x7b" :=
  ⟨(C1_function_pattern_by_family "int add(int a) \x7b" "java").1 (Or.inl rfl),
   (C1_function_pattern_by_family "function f() \x7b" "javascript").2
     (Or.inl rfl)⟩

/-- C4 counterexample: the claim says `if(x):` (no whitespace after `if`)
is counted, i.e. that the ifs field matches the whitespace-free pattern
of the spec's words; but the source's regex `\bif\s+[^:]*:` requires
whitespace, so on "if(x):" the code reports 0 while the claimed pattern
has one match. -/
theorem C4_counterexample :
    (analyzeCode "if(x):" "python").ifs ≠
      countMatches reSpecIfColon "if(x):" := by
  decide

/-- C4 (amended): for the tag python the ifs field equals the number of
non-overlapping matches of the keyword `if` followed by mandatory
whitespace, then any non-colon characters up to a trailing colon
(`\bif\s+[^:]*:`); in particular `if(x):` with no whitespace after `if`
is NOT counted. -/
theorem C4_python_if_count (text : String) :
    (analyzeCode text "python").ifs = countMatches reIfColon text ∧
      (analyzeCode "if(x):" "python").ifs = 0 :=
  ⟨rfl, by decide⟩

/-- C8 counterexample: with no active document neither handler surfaces
the literal message "no active file found": the notification handler
shows "No active code file found" and the status-bar handler writes
"Статистика: нет активного файла". -/
theorem C8_counterexample :
    ShellEffect.showMessage "no active file found" ∉
        showStatsNotification none ∧
      ShellEffect.statusText "no active file found" ∉ updateStatusBar none := by
  decide

/-- C8 (amended): whenever there is no active document, neither
`showStatsNotification` nor the status-bar update handler calls the
Analyzer; `showStatsNotification` surfaces the fixed message
"No active code file found" and the status-bar handler the fixed text
"Статистика: нет активного файла". -/
theorem C8_no_active_document :
    showStatsNotification none =
        [ShellEffect.showMessage "No active code file found"] ∧
      updateStatusBar none =
        [ShellEffect.statusText "Статистика: нет активного файла"] ∧
      ∀ t l, ShellEffect.analyzerCall t l ∉ showStatsNotification none ∧
        ShellEffect.analyzerCall t l ∉ updateStatusBar none := by
  refine ⟨rfl, rfl, fun t l => ⟨?_, ?_⟩⟩ <;>
    simp [showStatsNotification, updateStatusBar]

/-- C10 counterexample: the two copies of `analyzeCode` disagree on the
tag php, which only the second copy's curly-brace switch arm handles:
on "if (x) \x7b \x7d" the first copy returns zero counts while the second
counts one conditional. -/
theorem C10_counterexample :
    analyzeCode "if (x) \x7b \x7d" "php" ≠ analyzeCode' "if (x) \x7b \x7d" "php" := by
  decide

/-- C10 (amended): the two copies of `analyzeCode` compute equal results
for every input whose language tag is not php; on php they differ (the
first copy falls through to zero counts). -/
theorem C10_copies_agree_off_php (text tag : String) (h : tag ≠ "php") :
    analyzeCode text tag = analyzeCode' text tag := by
  unfold analyzeCode analyzeCode'
  by_cases h1 : tag = "javascript" ∨ tag = "typescript"
  · simp [h1]
  · by_cases h2 : tag = "python"
    · simp [h1, h2]
    · by_cases h3 : tag = "java" ∨ tag = "csharp" ∨ tag = "cpp" ∨ tag = "c"
      · rcases h3 with rfl | rfl | rfl | rfl <;> rfl
      · push_neg at h3
        obtain ⟨h4, h5, h6, h7⟩ := h3
        simp [h1, h2, h4, h5, h6, h7, h]

/-- C10 witness: the copies agree at a concrete non-php input. -/
theorem C10_copies_agree_off_php_witness :
    ("javascript" : String) ≠ "php" ∧
      analyzeCode "function f() \x7b \x7d" "javascript" =
        analyzeCode' "function f() \x7b \x7d" "javascript" :=
  ⟨by decide,
    C10_copies_agree_off_php "function f() \x7b \x7d" "javascript" (by decide)⟩
